import Mathlib

/-!
Verification development for the `loki` repository.

The definitions below are shallow embeddings of the orchestration-relevant
Python code:

* `src/main.py` — `_sanitize_command` (command sanitizer) and
  `_execute_devtools_script` (DevTools process invoker / result normalizer);
* `src/tools/generic_cmd.py` — `execute_linux_command` (generic process
  invoker);
* `src/tools/python-tools/analysis.py` — `start_full_assessment` and
  `get_assessment_status` (assessment coordinator boundary).

External effects (spawning a subprocess, the filesystem, `ctx.info` logging)
are modelled by explicit oracle parameters: a `ProcOutcome` value describes
what the one external process invocation did, Boolean parameters describe the
relevant filesystem facts, and a `json_loads` function parameter models
Python's `json.loads` (returning `none` where it would raise
`json.JSONDecodeError`).  Python strings are modelled by Lean `String`.
-/

/-- Python `str.startswith`: `pyStartswith s px` models `s.startswith(px)`. -/
def pyStartswith (s px : String) : Bool :=
  px.data.isPrefixOf s.data

/-- Substring containment on lists: `infixCheck n h` is true iff `n` occurs
contiguously inside `h`.  Used to model Python's `needle in haystack` on
strings. -/
def infixCheck (n : List Char) : List Char → Bool
  | [] => n.isEmpty
  | c :: t => n.isPrefixOf (c :: t) || infixCheck n t

/-- Python `needle in haystack` for strings (substring containment). -/
def pyIn (needle hay : String) : Bool :=
  infixCheck needle.data hay.data

/-- The character class stripped by Python `str.strip()` with no argument
(ASCII whitespace; Python also strips some further Unicode spaces, which the
command outputs modelled here never contain). -/
def pyIsStripSpace (c : Char) : Bool :=
  c = ' ' || c = '\t' || c = '\n' || c = '\r' || c = '\x0B' || c = '\x0C'

/-- Python `str.strip()`. -/
def pyStrip (s : String) : String :=
  String.mk (((s.data.dropWhile pyIsStripSpace).reverse.dropWhile pyIsStripSpace).reverse)

/-- Python `str.replace(a, b)` for a single-character pattern, as used by
`analysis.py` (`assessment_name.replace(' ', '_')`). -/
def pyReplaceChar (a b : Char) (s : String) : String :=
  String.mk (s.data.map (fun c => if c = a then b else c))

/-- Python `str.upper()` (the strings involved are ASCII, where Python's
`upper` agrees with `Char.toUpper`). -/
def pyUpper (s : String) : String :=
  String.mk (s.data.map Char.toUpper)

/-- The whitespace set of Python's `shlex` lexer (`shlex.whitespace`,
i.e. space, tab, carriage return, newline). -/
def pyIsShlexSpace (c : Char) : Bool :=
  c = ' ' || c = '\t' || c = '\r' || c = '\n'

/-- Lexer states of Python's `shlex` in POSIX mode with `whitespace_split`:
between tokens (`ws`), inside an unquoted word (`word`), inside single quotes
(`sq`), inside double quotes (`dq`), after a backslash outside quotes
(`escW`), after a backslash inside double quotes (`escD`). -/
inductive ShState where
  | ws
  | word
  | sq
  | dq
  | escW
  | escD
deriving Repr, DecidableEq

/-- One pass of `shlex.read_token` iterated over the whole input, i.e. the
loop of `shlex.split(command)` (POSIX mode, `whitespace_split = True`,
`commenters = ''`).  `tok` is the token being accumulated, `quoted` records
whether the current token saw a quote (POSIX `shlex` emits an empty token for
`''`), and `acc` collects finished tokens in reverse.  `Except.error` models
the `ValueError`s `shlex` raises on unbalanced quoting. -/
def shlexRun : List Char → ShState → String → Bool → List String →
    Except String (List String)
  | [], .ws, _, _, acc => .ok acc.reverse
  | [], .word, tok, _, acc => .ok (tok :: acc).reverse
  | [], .sq, _, _, _ => .error "No closing quotation"
  | [], .dq, _, _, _ => .error "No closing quotation"
  | [], .escW, _, _, _ => .error "No escaped character"
  | [], .escD, _, _, _ => .error "No escaped character"
  | c :: cs, .ws, tok, _, acc =>
    if pyIsShlexSpace c then shlexRun cs .ws tok false acc
    else if c = '\\' then shlexRun cs .escW tok false acc
    else if c = '\x27' then shlexRun cs .sq tok true acc
    else if c = '"' then shlexRun cs .dq tok true acc
    else shlexRun cs .word (tok.push c) false acc
  | c :: cs, .word, tok, quoted, acc =>
    if pyIsShlexSpace c then shlexRun cs .ws "" false (tok :: acc)
    else if c = '\\' then shlexRun cs .escW tok quoted acc
    else if c = '\x27' then shlexRun cs .sq tok true acc
    else if c = '"' then shlexRun cs .dq tok true acc
    else shlexRun cs .word (tok.push c) quoted acc
  | c :: cs, .sq, tok, quoted, acc =>
    if c = '\x27' then shlexRun cs .word tok quoted acc
    else shlexRun cs .sq (tok.push c) quoted acc
  | c :: cs, .dq, tok, quoted, acc =>
    if c = '"' then shlexRun cs .word tok quoted acc
    else if c = '\\' then shlexRun cs .escD tok quoted acc
    else shlexRun cs .dq (tok.push c) quoted acc
  | c :: cs, .escW, tok, quoted, acc => shlexRun cs .word (tok.push c) quoted acc
  | c :: cs, .escD, tok, quoted, acc =>
    if c = '"' || c = '\\' then shlexRun cs .dq (tok.push c) quoted acc
    else shlexRun cs .dq ((tok.push '\\').push c) quoted acc

/-- Python `shlex.split(command)` (as called by `main.py` and
`generic_cmd.py`): POSIX rules, whitespace splitting, no comment handling. -/
def shlex_split (command : String) : Except String (List String) :=
  shlexRun command.data .ws "" false []

/-- The deny-list of `_sanitize_command` in `src/main.py`. -/
def dangerous_commands : List String :=
  ["rm", "sudo", "shutdown", "reboot", "mkfs", "fdisk", ":()\x7b:|:&\x7d;:"]

/-- The tokenized deny-list check of `_sanitize_command`:
`any(any(part == dc or part.startswith(dc + " ") for dc in dangerous_commands)
for part in parts)`. -/
def tokenCheckRejects (parts : List String) : Bool :=
  parts.any (fun part =>
    dangerous_commands.any (fun dc => part == dc || pyStartswith part (dc ++ " ")))

/-- The fallback substring check of `_sanitize_command`:
`any(cmd in command for cmd in dangerous_commands)`. -/
def substringCheckRejects (command : String) : Bool :=
  dangerous_commands.any (fun cmd => pyIn cmd command)

/-- `_sanitize_command` from `src/main.py`.  Control flow of the source: the
whole tokenized check (including the `raise ValueError` it performs on a
deny-list hit) sits inside a `try` whose `except Exception` also catches that
very `ValueError`; therefore both a `shlex` failure and a tokenized-check hit
fall through to the substring fallback, and only the fallback's
`raise ValueError` actually escapes.  `Except.error` models the escaping
`ValueError` (the `SanitizationRejected` outcome); `Except.ok` is the
sanitized command returned by `return command`. -/
def _sanitize_command (command : String) : Except String String :=
  let fallback : Except String String :=
    if substringCheckRejects command then
      .error "Use of dangerous commands is restricted."
    else .ok command
  match shlex_split command with
  | .ok parts => if tokenCheckRejects parts then fallback else .ok command
  | .error _ => fallback

/-- Result record of `start_full_assessment` in
`src/tools/python-tools/analysis.py` (the returned dict
`{"assessment_id": ..., "status": "initiated", "profile": profile}`). -/
structure StartAssessmentResult where
  assessment_id : String
  status : String
  profile : String
deriving Repr, DecidableEq

/-- `start_full_assessment` from `src/tools/python-tools/analysis.py`.  The
source also fires off a `ctx.client.call_tool` task for subdomain enumeration
(fire-and-forget, result unobserved) and logs via `ctx.info`; both are side
effects with no influence on the returned value and are not modelled.  The id
is `f"ASMT_{assessment_name.replace(' ', '_').upper()}_{profile.upper()}"`. -/
def start_full_assessment (target_scope_description assessment_name profile : String) :
    StartAssessmentResult :=
  let _ := target_scope_description
  { assessment_id :=
      "ASMT_" ++ pyUpper (pyReplaceChar ' ' '_' assessment_name) ++ "_" ++ pyUpper profile
  , status := "initiated"
  , profile := profile }

/-- Result record of `get_assessment_status` (the returned dict
`{"assessment_id": ..., "status": "in_progress", "progress": 50}`). -/
structure AssessmentStatusResult where
  assessment_id : String
  status : String
  progress : Nat
deriving Repr, DecidableEq

/-- `get_assessment_status` from `src/tools/python-tools/analysis.py`.  The
source is a stub (its own comment: "Stub: real implementation would track
tasks and results"): it consults no store and unconditionally reports an
in-progress record for whatever id it is given. -/
def get_assessment_status (assessment_id : String) : AssessmentStatusResult :=
  { assessment_id := assessment_id, status := "in_progress", progress := 50 }

/-- Oracle describing what the one external process invocation
(`subprocess.run` / the `node` child process) did: ran to completion with an
exit code and captured streams, exceeded the wall-clock timeout (carrying the
partial output captured before the kill, which the code under test may or may
not propagate), failed to launch because the executable was absent
(`FileNotFoundError`), or raised some other `Exception` with message `msg`. -/
inductive ProcOutcome where
  | completed (returncode : Int) (stdout stderr : String)
  | timedOut (captured_stdout captured_stderr : String)
  | fileNotFound
  | otherError (msg : String)
deriving Repr, DecidableEq

/-- The result dict built by `execute_linux_command` in
`src/tools/generic_cmd.py` (keys `command`, `return_code`, `stdout`,
`stderr`, `timed_out`, `error`). -/
structure CmdResult where
  command : String
  return_code : Option Int
  stdout : String
  stderr : String
  timed_out : Bool
  error : Option String
deriving Repr, DecidableEq

/-- Outcome of one call to the `execute_linux_command` tool: either the
function returns its result dict (`ok`), or it raises a
`fastmcp.exceptions.ToolError` carrying the given message (`toolError`),
which propagates out of the function to the MCP framework. -/
inductive ToolOutcome where
  | ok (r : CmdResult)
  | toolError (msg : String)
deriving Repr, DecidableEq

/-- The inner `expand_part` of `execute_linux_command`: expand a standalone
`~` or a leading `~/` via `os.path.expanduser` (modelled as prepending the
caller's home directory `home`, given without a trailing slash), leave every
other argument untouched. -/
def expand_part (home part : String) : String :=
  if pyStartswith part "~/" || part == "~" then home ++ String.mk (part.data.drop 1)
  else part

/-- `execute_linux_command` from `src/tools/generic_cmd.py`.  `run` is the
oracle for the single `subprocess.run(cmd_parts, ...)` call.  Faithful control
flow of the source: a `shlex.split` `ValueError` and the
`ToolError("Command string cannot be empty.")` raised for an empty argument
list are both caught by the function's final `except Exception as e` and
re-raised as `ToolError(f"An unexpected error occurred while trying to
execute the command: {str(e)}")`; `subprocess.TimeoutExpired` is answered
with a result dict whose `return_code` is `None`, whose `stdout` is empty and
whose `stderr` is a synthesized message (the partial output carried by the
exception is dropped); `FileNotFoundError` is answered by raising a
`ToolError` naming `cmd_parts[0]`.  `ctx.info`/`ctx.warning`/`ctx.error`
logging is a side effect with no influence on the outcome and is not
modelled. -/
def execute_linux_command (home : String) (run : List String → ProcOutcome)
    (command : String) (timeout_seconds : Nat) : ToolOutcome :=
  match shlex_split command with
  | .error e =>
    .toolError ("An unexpected error occurred while trying to execute the command: " ++ e)
  | .ok parts =>
    let cmd_parts := parts.map (expand_part home)
    if cmd_parts.isEmpty then
      .toolError "An unexpected error occurred while trying to execute the command: Command string cannot be empty."
    else
      match run cmd_parts with
      | .completed rc out err =>
        .ok { command := command, return_code := some rc, stdout := pyStrip out
            , stderr := pyStrip err, timed_out := false, error := none }
      | .timedOut _ _ =>
        .ok { command := command, return_code := none, stdout := ""
            , stderr := "Command timed out after " ++ toString timeout_seconds ++ " seconds."
            , timed_out := true, error := none }
      | .fileNotFound =>
        .toolError ("Command or one of its components not found: " ++ cmd_parts.headD command)
      | .otherError m =>
        .toolError ("An unexpected error occurred while trying to execute the command: " ++ m)

/-- The directory constant `DEVTOOLS_SCRIPTS_DIR` of `src/main.py`. -/
def DEVTOOLS_SCRIPTS_DIR : String := "./devtool-scripts"

/-- The constant `NODE_EXECUTABLE` of `src/main.py`. -/
def NODE_EXECUTABLE : String := "node"

/-- Values produced by Python's `json.loads` (JSON numbers are modelled as
integers; no floating-point output is involved in any claim). -/
inductive PyJson where
  | obj (fields : List (String × PyJson))
  | arr (items : List PyJson)
  | str (s : String)
  | num (n : Int)
  | bool (b : Bool)
  | null

mutual

/-- Python `str()` of a JSON value, as applied by the f-string
`f"...: {parsed_stdout_error['error']}"` in `_execute_devtools_script`
(top level: a string renders without quotes; containers render like Python
`repr`, modelled without escape sequences since the strings involved here
contain none). -/
def pyStr : PyJson → String
  | .str s => s
  | .num n => toString n
  | .bool b => if b then "True" else "False"
  | .null => "None"
  | .obj fs => "\x7b" ++ pyReprFields fs ++ "\x7d"
  | .arr xs => "[" ++ pyReprItems xs ++ "]"

/-- Python `repr()` of a JSON value nested inside a container. -/
def pyRepr : PyJson → String
  | .str s => "\x27" ++ s ++ "\x27"
  | .num n => toString n
  | .bool b => if b then "True" else "False"
  | .null => "None"
  | .obj fs => "\x7b" ++ pyReprFields fs ++ "\x7d"
  | .arr xs => "[" ++ pyReprItems xs ++ "]"

/-- Comma-separated rendering of dict entries for `pyRepr`. -/
def pyReprFields : List (String × PyJson) → String
  | [] => ""
  | [(k, v)] => "\x27" ++ k ++ "\x27: " ++ pyRepr v
  | (k, v) :: rest => "\x27" ++ k ++ "\x27: " ++ pyRepr v ++ ", " ++ pyReprFields rest

/-- Comma-separated rendering of list items for `pyRepr`. -/
def pyReprItems : List PyJson → String
  | [] => ""
  | [v] => pyRepr v
  | v :: rest => pyRepr v ++ ", " ++ pyReprItems rest

end

/-- Outcome of `"error" in parsed_stdout_error` followed by
`parsed_stdout_error['error']` in `_execute_devtools_script`. -/
inductive ErrProbe where
  | hasError (v : PyJson)
  | noError
  | typeError (msg : String)

/-- Models `"error" in parsed` and, when the membership test succeeds on a
dict, the subsequent indexing `parsed['error']`.  Python semantics: `in` on a
dict tests keys; on a list it tests elements; on a string it tests substring
containment; on any other value it raises `TypeError` — as does indexing a
list or a string with the string key `'error'`.  All of those `TypeError`s
escape the inner `except json.JSONDecodeError` and reach the outer
`except Exception` of the source. -/
def probeError : PyJson → ErrProbe
  | .obj fs =>
    match fs.lookup "error" with
    | some v => .hasError v
    | none => .noError
  | .arr xs =>
    if xs.any (fun x => match x with | .str s => s == "error" | _ => false) then
      .typeError "list indices must be integers or slices, not str"
    else .noError
  | .str s =>
    if pyIn "error" s then .typeError "string indices must be integers"
    else .noError
  | .num _ => .typeError "argument of type \x27int\x27 is not iterable"
  | .bool _ => .typeError "argument of type \x27bool\x27 is not iterable"
  | .null => .typeError "argument of type \x27NoneType\x27 is not iterable"

/-- Return value of `_execute_devtools_script`, which in the source is always
a string: either the validated raw stdout returned directly (`raw`), or
`json.dumps` of a flat dict with string values, modelled by its field list
(`errJson`; `json.dumps` is injective on such dicts, so no information is
lost by keeping the structure). -/
inductive DevtoolsResult where
  | raw (s : String)
  | errJson (fields : List (String × String))
deriving Repr, DecidableEq

/-- A `DevtoolsResult` is a Success envelope exactly when the script's stdout
was returned directly (every other return of the source is an error dict). -/
def isSuccess : DevtoolsResult → Bool
  | .raw _ => true
  | .errJson _ => false

/-- `_execute_devtools_script` from `src/main.py`.  `script_exists` models
`os.path.exists(script_path)`, `puppeteer_ok` models the existence check for
`devtool-scripts/node_modules/puppeteer`, `json_loads` models `json.loads`
(`none` for a `JSONDecodeError`), and `run` is the oracle for the single
`subprocess.run([NODE_EXECUTABLE, script_path, url], ..., timeout=90)`
call. -/
def _execute_devtools_script (script_exists puppeteer_ok : Bool)
    (json_loads : String → Option PyJson) (run : ProcOutcome)
    (script_name url : String) : DevtoolsResult :=
  if !script_exists then
    .errJson [("error", "DevTools script not found: " ++ DEVTOOLS_SCRIPTS_DIR ++ "/" ++ script_name)]
  else if !puppeteer_ok then
    .errJson [("error", "Puppeteer not found in " ++ DEVTOOLS_SCRIPTS_DIR ++ "/node_modules. Please run \x27npm install puppeteer\x27 in that directory.")]
  else
    match run with
    | .completed rc out err =>
      let output_data := pyStrip out
      let error_data := pyStrip err
      if rc ≠ 0 then
        match json_loads output_data with
        | some parsed =>
          match probeError parsed with
          | .hasError v =>
            .errJson [("error", "Error from " ++ script_name ++ " (exit code " ++ toString rc ++ "): " ++ pyStr v)
                     , ("stderr", error_data)]
          | .noError =>
            .errJson [("error", "Error executing " ++ script_name ++ " (exit code " ++ toString rc ++ ")")
                     , ("stdout", output_data), ("stderr", error_data)]
          | .typeError m =>
            .errJson [("error", "Python error calling " ++ script_name ++ ": " ++ m)]
        | none =>
          .errJson [("error", "Error executing " ++ script_name ++ " (exit code " ++ toString rc ++ ")")
                   , ("stdout", output_data), ("stderr", error_data)]
      else
        match json_loads output_data with
        | some _ => .raw output_data
        | none =>
          .errJson [("error", "Non-JSON output received from " ++ script_name)
                   , ("raw_output", output_data)]
    | .timedOut _ _ =>
      .errJson [("error", "Timeout executing " ++ script_name ++ " for URL: " ++ url)]
    | .fileNotFound =>
      .errJson [("error", "Node.js executable (\x27" ++ NODE_EXECUTABLE ++ "\x27) not found. Please ensure Node.js is installed and in your PATH.")]
    | .otherError m =>
      .errJson [("error", "Python error calling " ++ script_name ++ ": " ++ m)]

/-- Characterization of `infixCheck`: it decides contiguous containment. -/
theorem infixCheck_iff (n h : List Char) : infixCheck n h = true ↔ n <:+: h := by
  induction h with
  | nil => simp [infixCheck]
  | cons c t ih => simp [infixCheck, ih, List.infix_cons_iff]

/-- Claim C6 counterexample: the command `r'm'` shell-tokenizes to the single
deny-listed word `rm`, so the tokenized check fires, but the raw string
`r'm'` contains no deny-listed entry as a substring, so the fallback check
does not fire — the fallback under-rejects relative to the tokenized check. -/
theorem tokenized_reject_not_covered_by_fallback_cex :
    shlex_split "r\x27m\x27" = Except.ok ["rm"] ∧
    tokenCheckRejects ["rm"] = true ∧
    substringCheckRejects "r\x27m\x27" = false :=
  ⟨rfl, rfl, rfl⟩

/-- Claim C6 (amended): the fallback substring check covers the tokenized
check only for commands whose shlex tokens all occur literally in the raw
command string (in particular, commands without quoting or escaping); under
that proviso, whenever the tokenized deny-list check rejects, the fallback
raw substring check rejects as well.  Without the proviso the fallback can
under-reject (see the counterexample). -/
theorem tokenized_reject_implies_fallback_on_literal_tokens :
    ∀ (command : String) (parts : List String),
      shlex_split command = Except.ok parts →
      tokenCheckRejects parts = true →
      (∀ p ∈ parts, p.data <:+: command.data) →
      substringCheckRejects command = true := by
  intro command parts _hs htok hlit
  unfold tokenCheckRejects at htok
  rw [List.any_eq_true] at htok
  obtain ⟨part, hmem, hpart⟩ := htok
  rw [List.any_eq_true] at hpart
  obtain ⟨dc, hdc, hor⟩ := hpart
  unfold substringCheckRejects
  rw [List.any_eq_true]
  refine ⟨dc, hdc, ?_⟩
  unfold pyIn
  rw [infixCheck_iff]
  rcases (Bool.or_eq_true _ _).mp hor with heq | hpre
  · have hed : part = dc := eq_of_beq heq
    rw [← hed]
    exact hlit part hmem
  · unfold pyStartswith at hpre
    rw [ List.isPrefixOf_iff_prefix] at hpre
    have h1 : dc.data <+: (dc ++ " ").data := by
      rw [String.data_append]
      exact List.prefix_append _ _
    exact ((h1.trans hpre).isInfix).trans (hlit part hmem)

/-- Claim C6 witness: concrete instantiation of the amended statement at the
unquoted command `rm`, whose sole token occurs literally in the raw string. -/
theorem tokenized_reject_implies_fallback_witness :
    substringCheckRejects "rm" = true :=
  tokenized_reject_implies_fallback_on_literal_tokens "rm" ["rm"] rfl rfl
    (by
      intro p hp
      simp only [List.mem_singleton] at hp
      subst hp
      exact List.infix_refl _)

/-- Claim C1: evaluation at the failing input.  The command `s'udo' ls`
shell-tokenizes to the standalone deny-listed word `sudo` (plus `ls`), the
tokenized check fires, yet `_sanitize_command` returns the command unchanged:
the `ValueError` raised by the tokenized check is swallowed by the function's
own `except Exception`, and the fallback substring check finds no deny-list
entry in the raw string `s'udo' ls`.  The last conjunct records that the
spec's Scenario B (`sudo rm -rf /`) is nevertheless rejected, via the
fallback. -/
theorem sanitize_denylist_standalone_word_bypass :
    shlex_split "s\x27udo\x27 ls" = Except.ok ["sudo", "ls"] ∧
    "sudo" ∈ dangerous_commands ∧
    tokenCheckRejects ["sudo", "ls"] = true ∧
    _sanitize_command "s\x27udo\x27 ls" = Except.ok "s\x27udo\x27 ls" ∧
    _sanitize_command "sudo rm -rf /" = Except.error "Use of dangerous commands is restricted." :=
  ⟨rfl, by decide, rfl, rfl, rfl⟩

/-- Claim C8: a command that passes the deny-list check is returned
unchanged (`_sanitize_command` is pure in this embedding, so "no side
effect" holds by construction), and in particular Scenario A:
`ls -la /tmp` passes and is returned verbatim. -/
theorem sanitize_pass_returns_unchanged :
    (∀ command s, _sanitize_command command = Except.ok s → s = command) ∧
    _sanitize_command "ls -la /tmp" = Except.ok "ls -la /tmp" := by
  constructor
  · intro command s h
    simp only [_sanitize_command] at h
    split at h
    · split at h
      · split at h
        · simp at h
        · exact (Except.ok.inj h).symm
      · exact (Except.ok.inj h).symm
    · split at h
      · simp at h
      · exact (Except.ok.inj h).symm
  · rfl

/-- Claim C8 witness: the general part applied at `ls -la /tmp`. -/
theorem sanitize_pass_returns_unchanged_witness :
    _sanitize_command "ls -la /tmp" = Except.ok "ls -la /tmp" ∧
    "ls -la /tmp" = "ls -la /tmp" :=
  ⟨sanitize_pass_returns_unchanged.2,
   sanitize_pass_returns_unchanged.1 "ls -la /tmp" "ls -la /tmp" rfl⟩

/-- Claim C2: `start_full_assessment` derives the assessment id
deterministically from the name and profile alone (the scope argument does
not influence it), uppercasing and replacing spaces with underscores, returns
status `initiated`, and Scenario E holds: name `Test Run` with profile
`quick_recon` yields `ASMT_TEST_RUN_QUICK_RECON`. -/
theorem start_full_assessment_id_and_status :
    (start_full_assessment "example.com" "Test Run" "quick_recon").assessment_id
      = "ASMT_TEST_RUN_QUICK_RECON" ∧
    (start_full_assessment "example.com" "Test Run" "quick_recon").status = "initiated" ∧
    (∀ scope₁ scope₂ name profile,
      (start_full_assessment scope₁ name profile).assessment_id
        = (start_full_assessment scope₂ name profile).assessment_id) ∧
    (∀ scope name profile, (start_full_assessment scope name profile).status = "initiated") :=
  ⟨rfl, rfl, fun _ _ _ _ => rfl, fun _ _ _ => rfl⟩

/-- Claim C9: evaluation at the failing input.  `get_assessment_status` is a
stateless stub: for an assessment id for which no assessment was ever started
it still fabricates an in-progress record (status `in_progress`, progress 50)
instead of reporting NotFound; indeed its result type has no NotFound
alternative and its status is `in_progress` for every input. -/
theorem get_assessment_status_fabricates_in_progress :
    get_assessment_status "ASMT_GHOST_QUICK_RECON"
      = { assessment_id := "ASMT_GHOST_QUICK_RECON", status := "in_progress", progress := 50 } ∧
    (∀ assessment_id, (get_assessment_status assessment_id).status = "in_progress") :=
  ⟨rfl, fun _ => rfl⟩

/-- Claim C10: a command string that is empty or shell-tokenizes to an empty
argument list makes `execute_linux_command` fail with a `ToolError` whose
message states that the command cannot be empty (the inner
`ToolError("Command string cannot be empty.")` is re-wrapped by the
function's `except Exception`), and the result does not depend on the process
oracle `run` — no external process is consulted. -/
theorem linux_cmd_rejects_empty_command :
    ∀ (home : String) (run : List String → ProcOutcome) (command : String) (ts : Nat),
      shlex_split command = Except.ok [] →
      execute_linux_command home run command ts
        = ToolOutcome.toolError "An unexpected error occurred while trying to execute the command: Command string cannot be empty." := by
  intro home run command ts h
  unfold execute_linux_command
  rw [h]
  rfl

/-- Claim C10 witness: the empty command string with an arbitrary concrete
process oracle. -/
theorem linux_cmd_rejects_empty_command_witness :
    shlex_split "" = Except.ok [] ∧
    execute_linux_command "/root" (fun _ => ProcOutcome.completed 0 "unused" "") "" 60
      = ToolOutcome.toolError "An unexpected error occurred while trying to execute the command: Command string cannot be empty." :=
  ⟨rfl, linux_cmd_rejects_empty_command "/root" (fun _ => ProcOutcome.completed 0 "unused" "") "" 60 rfl⟩

/-- Claim C3 counterexample: on timeout the returned envelope's `stderr` is
not empty — the partial captured output is indeed dropped, but `stderr` is
replaced by a synthesized timeout message rather than left empty as the
claim states. -/
theorem linux_cmd_timeout_stderr_nonempty_cex :
    execute_linux_command "/root" (fun _ => ProcOutcome.timedOut "partial out" "partial err") "sleep 5" 1
      = ToolOutcome.ok { command := "sleep 5", return_code := none, stdout := "", stderr := "Command timed out after 1 seconds.", timed_out := true, error := none } ∧
    "Command timed out after 1 seconds." ≠ "" :=
  ⟨rfl, by decide⟩

/-- Claim C3 (amended): when the underlying process exceeds the wall-clock
timeout, the result is returned as an envelope with `timed_out = true`, no
exit code (`return_code = none`), empty `stdout`, and `stderr` set to the
fixed message `Command timed out after N seconds.`; the partial
stdout/stderr captured before the kill (`po`, `pe`) is discarded — the
envelope does not depend on it. -/
theorem linux_cmd_timeout_envelope :
    ∀ (home : String) (run : List String → ProcOutcome) (command : String) (ts : Nat)
      (parts : List String) (po pe : String),
      shlex_split command = Except.ok parts →
      parts ≠ [] →
      run (parts.map (expand_part home)) = ProcOutcome.timedOut po pe →
      execute_linux_command home run command ts
        = ToolOutcome.ok { command := command, return_code := none, stdout := "", stderr := "Command timed out after " ++ toString ts ++ " seconds.", timed_out := true, error := none } := by
  intro home run command ts parts po pe hs hne hrun
  unfold execute_linux_command
  rw [hs]
  cases parts with
  | nil => exact absurd rfl hne
  | cons a t => rw [List.map_cons] at hrun; simp [hrun]

/-- Claim C3 witness: concrete instantiation of the amended statement. -/
theorem linux_cmd_timeout_envelope_witness :
    shlex_split "sleep 5" = Except.ok ["sleep", "5"] ∧
    execute_linux_command "/root" (fun _ => ProcOutcome.timedOut "half-written" "oops") "sleep 5" 1
      = ToolOutcome.ok { command := "sleep 5", return_code := none, stdout := "", stderr := "Command timed out after 1 seconds.", timed_out := true, error := none } :=
  ⟨rfl, linux_cmd_timeout_envelope "/root" (fun _ => ProcOutcome.timedOut "half-written" "oops")
      "sleep 5" 1 ["sleep", "5"] "half-written" "oops" rfl (by decide) rfl⟩

/-- Claim C4 counterexample: when the executable is not found
(`FileNotFoundError`), `execute_linux_command` does not return a result
envelope — it raises a `ToolError` past the invoker boundary. -/
theorem linux_cmd_toolnotfound_raises_cex :
    execute_linux_command "/root" (fun _ => ProcOutcome.fileNotFound) "missing_binary --version" 60
      = ToolOutcome.toolError "Command or one of its components not found: missing_binary" :=
  rfl

/-- Claim C4 (amended): completed executions (any exit code) and timeouts are
returned to the caller as typed result envelopes, but the executable-not-found
case and unexpected invocation errors are raised as `ToolError` exceptions
past the invoker boundary instead of being returned as envelopes. -/
theorem linux_cmd_envelope_or_raise :
    ∀ (home : String) (run : List String → ProcOutcome) (command : String) (ts : Nat)
      (parts : List String),
      shlex_split command = Except.ok parts →
      parts ≠ [] →
      ((∀ rc out err, run (parts.map (expand_part home)) = ProcOutcome.completed rc out err →
          execute_linux_command home run command ts
            = ToolOutcome.ok { command := command, return_code := some rc, stdout := pyStrip out, stderr := pyStrip err, timed_out := false, error := none }) ∧
       (∀ po pe, run (parts.map (expand_part home)) = ProcOutcome.timedOut po pe →
          ∃ r, execute_linux_command home run command ts = ToolOutcome.ok r) ∧
       (run (parts.map (expand_part home)) = ProcOutcome.fileNotFound →
          execute_linux_command home run command ts
            = ToolOutcome.toolError ("Command or one of its components not found: "
                ++ (parts.map (expand_part home)).headD command)) ∧
       (∀ m, run (parts.map (expand_part home)) = ProcOutcome.otherError m →
          execute_linux_command home run command ts
            = ToolOutcome.toolError ("An unexpected error occurred while trying to execute the command: " ++ m))) := by
  intro home run command ts parts hs hne
  refine ⟨?_, ?_, ?_, ?_⟩
  · intro rc out err hrun
    unfold execute_linux_command
    rw [hs]
    cases parts with
    | nil => exact absurd rfl hne
    | cons a t => rw [List.map_cons] at hrun; simp [hrun]
  · intro po pe hrun
    refine ⟨{ command := command, return_code := none, stdout := "", stderr := "Command timed out after " ++ toString ts ++ " seconds.", timed_out := true, error := none }, ?_⟩
    unfold execute_linux_command
    rw [hs]
    cases parts with
    | nil => exact absurd rfl hne
    | cons a t => rw [List.map_cons] at hrun; simp [hrun]
  · intro hrun
    unfold execute_linux_command
    rw [hs]
    cases parts with
    | nil => exact absurd rfl hne
    | cons a t => rw [List.map_cons] at hrun; simp [hrun]
  · intro m hrun
    unfold execute_linux_command
    rw [hs]
    cases parts with
    | nil => exact absurd rfl hne
    | cons a t => rw [List.map_cons] at hrun; simp [hrun]

/-- Claim C4 witness: the completed-execution conjunct applied at a concrete
invocation. -/
theorem linux_cmd_envelope_or_raise_witness :
    shlex_split "echo hi" = Except.ok ["echo", "hi"] ∧
    execute_linux_command "/root" (fun _ => ProcOutcome.completed 0 "hi" "") "echo hi" 60
      = ToolOutcome.ok { command := "echo hi", return_code := some 0, stdout := "hi", stderr := "", timed_out := false, error := none } :=
  ⟨rfl, (linux_cmd_envelope_or_raise "/root" (fun _ => ProcOutcome.completed 0 "hi" "")
      "echo hi" 60 ["echo", "hi"] rfl (by decide)).1 0 "hi" "" rfl⟩

/-- Claim C5 counterexample: a completed invocation that exits 0 but whose
stdout does not parse as JSON is normalized to an error envelope, so
`exit_code == 0` does not imply `status == Success` — the claimed iff fails
in that direction (the exit code here is 0 on the nose). -/
theorem devtools_exit_zero_not_success_cex :
    _execute_devtools_script true true (fun _ => none) (ProcOutcome.completed 0 "oops" "") "get_network_data.js" "https://example.com"
      = DevtoolsResult.errJson [("error", "Non-JSON output received from get_network_data.js"), ("raw_output", "oops")] ∧
    ¬(((0 : Int) = 0) ↔ isSuccess (_execute_devtools_script true true (fun _ => none) (ProcOutcome.completed 0 "oops" "") "get_network_data.js" "https://example.com") = true) :=
  ⟨rfl, by decide⟩

/-- Claim C5 (amended): for a completed invocation (script and puppeteer
present), the envelope is a Success exactly when the exit code is 0 AND the
stripped stdout parses as JSON; `Success` still implies exit code 0, but
exit code 0 with non-conforming output yields a Failed envelope. -/
theorem devtools_success_iff_exit_zero_and_parsed :
    ∀ (json_loads : String → Option PyJson) (rc : Int) (out err script_name url : String),
      isSuccess (_execute_devtools_script true true json_loads (ProcOutcome.completed rc out err) script_name url) = true
        ↔ (rc = 0 ∧ (json_loads (pyStrip out)).isSome = true) := by
  intro jl rc out err name url
  unfold _execute_devtools_script
  by_cases hrc : rc = 0
  · subst hrc
    cases hjl : jl (pyStrip out) with
    | none => simp [hjl, isSuccess]
    | some parsed => simp [hjl, isSuccess]
  · cases hjl : jl (pyStrip out) with
    | none => simp [hjl, isSuccess, hrc]
    | some parsed =>
      cases hpe : probeError parsed with
      | hasError v => simp [hjl, hpe, isSuccess, hrc]
      | noError => simp [hjl, hpe, isSuccess, hrc]
      | typeError m => simp [hjl, hpe, isSuccess, hrc]

/-- Claim C7: a completed invocation that exits 0 with stdout the parser
rejects is normalized to a Failed envelope whose `error` message flags the
non-conforming output and which retains the (stripped) stdout under the
`raw_output` field. -/
theorem devtools_nonconforming_output_envelope :
    ∀ (json_loads : String → Option PyJson) (out err script_name url : String),
      json_loads (pyStrip out) = none →
      _execute_devtools_script true true json_loads (ProcOutcome.completed 0 out err) script_name url
        = DevtoolsResult.errJson [("error", "Non-JSON output received from " ++ script_name), ("raw_output", pyStrip out)] := by
  intro jl out err name url h
  unfold _execute_devtools_script
  simp [h]

/-- Claim C7 witness: concrete non-JSON stdout (note the stripping of the
surrounding whitespace in the retained raw output). -/
theorem devtools_nonconforming_output_envelope_witness :
    _execute_devtools_script true true (fun _ => none) (ProcOutcome.completed 0 " raw text " "") "get_console_logs.js" "https://example.com"
      = DevtoolsResult.errJson [("error", "Non-JSON output received from get_console_logs.js"), ("raw_output", "raw text")] :=
  devtools_nonconforming_output_envelope (fun _ => none) " raw text " "" "get_console_logs.js" "https://example.com" rfl
